import Mathlib

/-!
Verification development for the sentinel2_downloader repository.

The development shallowly embeds the deterministic core of the source files
  src/sentinel2_downloader/downloader.py        (scene processing, composite assembly)
  src/sentinel2_downloader/utils/metadata.py    (change_arr)
  src/sentinel2_downloader/utils/geometry.py    (crop_image_to_bbox window arithmetic)
into Lean definitions and proves or refutes the frozen claims about them.

Modelling conventions:
  - Python floats are modelled as exact rationals; float rounding itself is not modelled.
  - Network fetches (requests, rio_tiler, pystac search) are external collaborators and
    appear as function parameters supplying their results.
  - A Python run that raises an uncaught exception is modelled as Except.error with a
    constructor naming the exception kind; a normal return is Except.ok.
  - Pixel grids are row-major lists of rows; the numpy sample dtype is not modelled
    since no claim concerns it.
-/

namespace S2

/-- A 2-D pixel grid, row-major: a list of rows of integer samples. -/
abbrev Grid := List (List Int)

/-- Number of rows, numpy arr.shape[0]. -/
def Grid.rows (g : Grid) : Nat := g.length

/-- Number of columns, numpy arr.shape[1] of a rectangular array. -/
def Grid.cols (g : Grid) : Nat := (g.headD []).length

/-- The (rows, cols) shape pair of a grid. -/
def Grid.shape (g : Grid) : Nat × Nat := (g.rows, g.cols)

/-- A rasterio affine transform: six coefficients a b c d e f mapping pixel
(col,row) to CRS coordinates, kept as exact rationals. -/
structure Affine where
  a : ℚ
  b : ℚ
  c : ℚ
  d : ℚ
  e : ℚ
  f : ℚ
deriving DecidableEq

/-- The rasterio meta record of a dataset, restricted to the fields the claims
touch: height, width, band count, driver, transform and CRS (the sample dtype
and nodata value are not modelled). -/
structure Meta where
  height : Nat
  width : Nat
  count : Nat
  driver : String
  transform : Affine
  crs : String
deriving DecidableEq

/-- The result of fetching one band: the pixel grid plus the meta record,
transform and CRS returned by download / download_bbox in downloader.py
(the Python four-element list [b, meta_b, transform, crs]). -/
structure BandSample where
  pixels : Grid
  meta : Meta
  transform : Affine
  crs : String
deriving DecidableEq

/-- A raster product written into a MemoryFile: its bands (band-major), its meta
record and its tag dictionary. -/
structure Product where
  bands : List Grid
  meta : Meta
  tags : List (String × String)
deriving DecidableEq

/-- The date fields of a parsed ISO-8601 timestamp used for the suffix tag. -/
structure SDate where
  year : Nat
  month : Nat
  day : Nat
deriving DecidableEq

/-- One STAC catalog item as the scene loop consumes it: the asset index maps a
band name to an href, where an absent key models a band missing from the index
and a stored none models an asset whose href attribute is None. -/
structure Item where
  id : String
  assets : List (String × Option String)
  cloudCover : String
  datetimeStr : String
  platform : Option String
deriving DecidableEq

/-- Uncaught Python exceptions the embedded code can raise. -/
inductive PyError where
  | keyError (k : String)
  | indexError
  | valueError
  | parseError
deriving DecidableEq

/-- Python percent-02d formatting of the month and day fields. -/
def pad2 (n : Nat) : String :=
  if n < 10 then "0" ++ toString n else toString n

/-- The tag dictionary written by dst.update_tags in downloader.py. -/
def mkTags (title cc dateStr sfx platform : String) : List (String × String) :=
  [("Title", title), ("CloudCover", cc), ("Date", dateStr),
   ("Suffix", sfx), ("Platform", platform)]

/-- The derived suffix tag string of the given date and band label. -/
def mkSfx (d : SDate) (label : String) : String :=
  "_" ++ toString d.year ++ "_" ++ pad2 d.month ++ "_" ++ pad2 d.day ++ "_" ++ label

/- ------------------------------------------------------------------ -/
/- utils/metadata.py : change_arr                                      -/
/- ------------------------------------------------------------------ -/

/-- One step of change_arr in utils/metadata.py: for a (memfile, arr) pair it
copies the meta of the source, the band count included, sets height and width
from the shape of arr, replaces the transform by Affine(a/2, b, c, d, e/2, f),
and then writes arr[np.newaxis, ...] — a (1, h, w) stack — into a fresh
MemoryFile opened with that meta. rasterio dst.write accepts the stack only
when the band count of the target dataset is 1; on any other count (the
pipeline RGB composites have count 3) it raises ValueError and no raster is
returned. No update_tags call is made on the new MemoryFile, so a returned
raster has an empty tag dictionary. -/
def changeOne (p : Product) (arr : Grid) : Except PyError Product :=
  let newMeta := { p.meta with
                   height := arr.rows,
                   width := arr.cols,
                   transform := { a := p.meta.transform.a / 2,
                                  b := p.meta.transform.b,
                                  c := p.meta.transform.c,
                                  d := p.meta.transform.d,
                                  e := p.meta.transform.e / 2,
                                  f := p.meta.transform.f } }
  if newMeta.count = 1 then
    .ok { bands := [arr], meta := newMeta, tags := [] }
  else
    .error .valueError

/-- change_arr of utils/metadata.py on an already-flat list of memfiles: zip
the memfiles with the replacement arrays and rebuild each; the first
count-mismatch ValueError raised by dst.write propagates out of the loop,
losing all rebuilt rasters (the isinstance branch flattening a list of lists
is a dynamic-typing shim on a different input type and is not modelled). -/
def change_arr : List Product → List Grid → Except PyError (List Product)
  | p :: ps, arr :: arrs =>
    match changeOne p arr with
    | .error e => .error e
    | .ok q =>
      match change_arr ps arrs with
      | .error e => .error e
      | .ok qs => .ok (q :: qs)
  | _, _ => .ok []

/- ------------------------------------------------------------------ -/
/- utils/geometry.py : crop_image_to_bbox window arithmetic            -/
/- ------------------------------------------------------------------ -/

/-- A coordinate bounding box (left, bottom, right, top) in CRS units. -/
structure Bounds where
  left : ℚ
  bottom : ℚ
  right : ℚ
  top : ℚ
deriving DecidableEq

/-- A rasterio pixel window: column offset, row offset, width, height. -/
structure CropWin where
  colOff : Int
  rowOff : Int
  width : Int
  height : Int
deriving DecidableEq

/-- The error raised by crop_image_to_bbox when the computed crop size is not
positive (ValueError "Invalid crop size..."). -/
inductive CropError where
  | invalidCropSize
deriving DecidableEq

/-- Python int() on an exact rational: truncation toward zero. -/
def pyTrunc (q : ℚ) : Int := q.num / q.den

/-- The window computation of crop_image_to_bbox in utils/geometry.py, applied
to the bbox already reprojected into the image CRS (the transform_bounds call
is an external collaborator). It converts coordinates to pixel offsets with
int() truncation, raises when width or height is not positive, then clamps the
offsets with max 0 (min off (dim - size)). The source reads and writes the
output file only after an ok result, so an error means no output is written. -/
def cropWindow (srcW srcH : Nat) (ib : Bounds) (pw ph : ℚ) (bb : Bounds) :
    Except CropError CropWin :=
  let colOff := pyTrunc ((bb.left - ib.left) / pw)
  let rowOff := pyTrunc ((ib.top - bb.top) / ph)
  let w := pyTrunc ((bb.right - bb.left) / pw)
  let h := pyTrunc ((bb.top - bb.bottom) / ph)
  if w ≤ 0 ∨ h ≤ 0 then
    .error .invalidCropSize
  else
    .ok { colOff := max 0 (min colOff ((srcW : Int) - w)),
          rowOff := max 0 (min rowOff ((srcH : Int) - h)),
          width := w, height := h }

/- ------------------------------------------------------------------ -/
/- downloader.py : scene processing and composite assembly             -/
/- ------------------------------------------------------------------ -/

/-- Dictionary lookup assets[band]: an absent key is a Python KeyError, a
present key yields the stored href attribute (possibly None). -/
def lookupAsset (assets : List (String × Option String)) (band : String) :
    Option (Option String) :=
  (assets.find? fun p => p.fst = band).map Prod.snd

/-- The inner band loop of _get_sentinel2_image for one item: for each band it
looks the band up in the asset index (KeyError when absent, aborting the run),
breaks out of the loop when the href is None, and otherwise appends the fetch
result to bands_data. fetch stands for download / download_bbox, whose network
result is supplied as a function. After a break, the bands after the breaking
one are never looked up. -/
def collectBands (assets : List (String × Option String))
    (fetch : String → BandSample) :
    List String → Except PyError (List BandSample)
  | [] => .ok []
  | band :: rest =>
    match lookupAsset assets band with
    | none => .error (.keyError band)
    | some none => .ok []
    | some (some link) =>
      match collectBands assets fetch rest with
      | .error e => .error e
      | .ok others => .ok (fetch link :: others)

/-- The condition selecting the RGB composite branch: bands equals the
canonical triple in either naming scheme. -/
def isCanonical (bands : List String) : Bool :=
  bands = ["B04", "B03", "B02"] || bands = ["red", "green", "blue"]

/-- The else branch of the per-item assembly: one single-band MemoryFile per
collected band, zipped with file_suffix. Each product keeps the meta record of
its own band sample unchanged and is tagged with a per-band title and suffix;
an unparseable timestamp raises out of the loop, losing all products. -/
def perBand (parseISO : String → Option SDate) (item : Item) :
    List (BandSample × String) → Except PyError (List Product)
  | [] => .ok []
  | (s, name) :: rest =>
    match parseISO item.datetimeStr with
    | none => .error .parseError
    | some d =>
      match perBand parseISO item rest with
      | .error e => .error e
      | .ok ps =>
        .ok ({ bands := [s.pixels],
               meta := s.meta,
               tags := mkTags ("Sentinel-2 " ++ name ++ " Band") item.cloudCover
                         item.datetimeStr (mkSfx d name)
                         (item.platform.getD "Sentinel-2") } :: ps)

/-- One iteration of the item loop of _get_sentinel2_image. After collecting
bands_data, the canonical-triple branch indexes bands_data[0..2] (IndexError
when fewer than three bands were collected), stacks them (np.stack raises
ValueError on mismatched shapes), and builds one composite whose meta is the
meta of the LAST fetched sample updated with count 3, GTiff driver, and the
transform and crs variables left over from the last loop iteration; height and
width stay those of the last sample. The timestamp is parsed with isoparse,
whose failure raises. Every other band list goes to the per-band branch.
parseISO models the external dateutil isoparse, returning none on failure. -/
def processItem (bands fileSuffix : List String)
    (fetch : String → BandSample) (parseISO : String → Option SDate)
    (item : Item) : Except PyError (List Product) :=
  match collectBands item.assets fetch bands with
  | .error e => .error e
  | .ok data =>
    if isCanonical bands then
      match data with
      | [s0, s1, s2] =>
        if s0.pixels.shape = s1.pixels.shape ∧ s1.pixels.shape = s2.pixels.shape then
          match parseISO item.datetimeStr with
          | none => .error .parseError
          | some d =>
            .ok [{ bands := [s0.pixels, s1.pixels, s2.pixels],
                   meta := { s2.meta with
                             count := 3,
                             driver := "GTiff",
                             transform := s2.transform,
                             crs := s2.crs },
                   tags := mkTags "Sentinel-2 RGB Composite" item.cloudCover
                             item.datetimeStr (mkSfx d "RGB")
                             (item.platform.getD "Sentinel-2") }]
        else .error .valueError
      | _ => .error .indexError
    else
      perBand parseISO item (data.zip fileSuffix)

/-- The item loop of _get_sentinel2_image: products of all items accumulate in
one list; an uncaught exception in any item aborts the whole run. -/
def processItems (bands fileSuffix : List String)
    (fetch : String → BandSample) (parseISO : String → Option SDate) :
    List Item → Except PyError (List Product)
  | [] => .ok []
  | item :: rest =>
    match processItem bands fileSuffix fetch parseISO item with
    | .error e => .error e
    | .ok ps =>
      match processItems bands fileSuffix fetch parseISO rest with
      | .error e => .error e
      | .ok more => .ok (ps ++ more)

/-- The body of _get_sentinel2_image after the search call: when the item
collection is empty it prints and returns the pair (None, None), modelled as
none; otherwise it runs the item loop and returns the two parallel lists,
modelled as one list of products. -/
def getSentinel2ImageResult (bands fileSuffix : List String)
    (fetch : String → BandSample) (parseISO : String → Option SDate)
    (items : List Item) : Except PyError (Option (List Product)) :=
  if items.length = 0 then .ok none
  else
    match processItems bands fileSuffix fetch parseISO items with
    | .error e => .error e
    | .ok ps => .ok (some ps)

/-- The length of the product list of an ok result, used to state concrete
counts of produced rasters. -/
def okLength (r : Except PyError (List Product)) : Option Nat :=
  match r with
  | .ok ps => some ps.length
  | .error _ => none

/- ------------------------------------------------------------------ -/
/- downloader.py : entry-point bbox and band-name handling             -/
/- ------------------------------------------------------------------ -/

/-- A shapely polygon restricted to what the pipeline reads from it: its
bounds rectangle. -/
structure Poly where
  minx : ℚ
  miny : ℚ
  maxx : ℚ
  maxy : ℚ
deriving DecidableEq

/-- The caller-supplied bbox argument of get_sentinel2_image: a shapely
Polygon or a four-coordinate tuple. -/
inductive BboxArg where
  | poly (p : Poly)
  | tuple (minx miny maxx maxy : ℚ)
deriving DecidableEq

/-- shapely.geometry.box: builds the rectangle polygon of the four given
coordinates. It performs no min-less-than-max validation and never raises on
an inverted box. -/
def shapelyBox (minx miny maxx maxy : ℚ) : Poly :=
  { minx := minx, miny := miny, maxx := maxx, maxy := maxy }

/-- delta_km_to_deg of utils/geometry.py over exact rationals; cos(radians lat)
is floating-point trigonometry and is supplied as the parameter cosLat. -/
def delta_km_to_deg (cosLat : ℚ) (dx dy : ℚ) : ℚ × ℚ :=
  (dx / (11132 / 100 * cosLat), dy / (11132 / 100))

/-- The bbox logic of get_sentinel2_image: a missing bbox is derived from the
center point and bbox_delta via delta_km_to_deg and shapely box; a supplied
Polygon is kept as is; a supplied tuple is passed to shapely box. No branch
validates the coordinates and none can raise. -/
def normalizeBbox (cosLat : ℚ) (lat lon dx dy : ℚ) (arg : Option BboxArg) : Poly :=
  match arg with
  | none =>
    let d := delta_km_to_deg cosLat dx dy
    shapelyBox (lon - d.1) (lat - d.2) (lon + d.1) (lat + d.2)
  | some (.poly p) => p
  | some (.tuple a b c d) => shapelyBox a b c d

/-- The API selector of get_sentinel2_image. -/
inductive ApiKind where
  | microsoft
  | element84
deriving DecidableEq

/-- The element84 band-name mapping table of downloader.py. -/
def bandNames : List (String × String) :=
  [("B04", "red"), ("B03", "green"), ("B02", "blue"), ("B01", "coastal"),
   ("B05", "rededge1"), ("B06", "rededge2"), ("B07", "rededge3"),
   ("B08", "nir"), ("B8A", "nir08"), ("B09", "nir09"), ("B10", "cirrus"),
   ("B11", "swir16"), ("B12", "swir22")]

/-- The band renaming of the element84 branch: band_names[band] for each band,
a KeyError when a band is outside the mapping table; the microsoft branch
keeps the bands unchanged. -/
def mapBands : ApiKind → List String → Except PyError (List String)
  | .microsoft, bs => .ok bs
  | .element84, [] => .ok []
  | .element84, b :: bs =>
    match (bandNames.find? fun p => p.fst = b).map Prod.snd with
    | none => .error (.keyError b)
    | some n =>
      match mapBands .element84 bs with
      | .error e => .error e
      | .ok ns => .ok (n :: ns)

/-- The pre-search stage of get_sentinel2_image: file_suffix is the original
band list, the bands are renamed per the API, and the bbox argument is
normalized. The Client.open network call is an external collaborator and not
modelled. The stage returns the mapped bands, file_suffix, and the polygon
handed to the search; no coordinate validation occurs anywhere in it. -/
def entrySetup (api : ApiKind) (cosLat : ℚ) (lat lon dx dy : ℚ)
    (bandsArg : List String) (bboxArg : Option BboxArg) :
    Except PyError (List String × List String × Poly) :=
  match mapBands api bandsArg with
  | .error e => .error e
  | .ok bs => .ok (bs, bandsArg, normalizeBbox cosLat lat lon dx dy bboxArg)

/- ------------------------------------------------------------------ -/
/- concrete fixtures used by counterexamples and witnesses             -/
/- ------------------------------------------------------------------ -/

/-- A red band sample at 10 m scale, origin x 600000. -/
def sampleR : BandSample :=
  { pixels := [[11]],
    meta := { height := 1, width := 1, count := 1, driver := "GTiff",
              transform := { a := 10, b := 0, c := 600000, d := 0, e := -10, f := 4500000 },
              crs := "EPSG:32631" },
    transform := { a := 10, b := 0, c := 600000, d := 0, e := -10, f := 4500000 },
    crs := "EPSG:32631" }

/-- A green band sample whose transform origin differs from the red one. -/
def sampleG : BandSample :=
  { pixels := [[12]],
    meta := { height := 1, width := 1, count := 1, driver := "GTiff",
              transform := { a := 10, b := 0, c := 600010, d := 0, e := -10, f := 4500000 },
              crs := "EPSG:32631" },
    transform := { a := 10, b := 0, c := 600010, d := 0, e := -10, f := 4500000 },
    crs := "EPSG:32631" }

/-- A blue band sample whose transform origin differs from both others. -/
def sampleB : BandSample :=
  { pixels := [[13]],
    meta := { height := 1, width := 1, count := 1, driver := "GTiff",
              transform := { a := 10, b := 0, c := 600020, d := 0, e := -10, f := 4500000 },
              crs := "EPSG:32631" },
    transform := { a := 10, b := 0, c := 600020, d := 0, e := -10, f := 4500000 },
    crs := "EPSG:32631" }

/-- A scene whose asset index has all three canonical bands. -/
def itemRGB : Item :=
  { id := "S2A_T31TCJ_0105",
    assets := [("B04", some "u4"), ("B03", some "u3"), ("B02", some "u2")],
    cloudCover := "5.0", datetimeStr := "2024-01-05T10:30:00Z",
    platform := some "sentinel-2a" }

/-- A scene whose asset index lacks the B04 key entirely. -/
def itemNoB04 : Item :=
  { id := "S2A_missing_band",
    assets := [("B03", some "u3"), ("B02", some "u2")],
    cloudCover := "5.0", datetimeStr := "2024-01-05T10:30:00Z", platform := none }

/-- A scene whose B04 asset exists but has a None href. -/
def itemNullHref : Item :=
  { id := "S2A_null_href",
    assets := [("B04", none), ("B03", some "u3"), ("B02", some "u2")],
    cloudCover := "5.0", datetimeStr := "2024-01-05T10:30:00Z", platform := none }

/-- A scene whose acquisition timestamp is not ISO-8601. -/
def itemBadDate : Item :=
  { id := "S2A_bad_date",
    assets := [("B04", some "u4"), ("B03", some "u3"), ("B02", some "u2")],
    cloudCover := "5.0", datetimeStr := "not-a-timestamp",
    platform := none }

/-- A fetch oracle mapping the fixture hrefs to the fixture samples. -/
def fetchRGB : String → BandSample := fun u =>
  if u = "u4" then sampleR else if u = "u3" then sampleG else sampleB

/-- A parse oracle that parses every timestamp to 2024-01-05. -/
def parseJan5 : String → Option SDate := fun _ => some { year := 2024, month := 1, day := 5 }

/-- A parse oracle failing exactly on the malformed fixture timestamp. -/
def parseMixed : String → Option SDate := fun s =>
  if s = "not-a-timestamp" then none else some { year := 2024, month := 1, day := 5 }

/-- A fully tagged single-band product fixture with band count 1, as the
per-band assembly branch produces. -/
def prodOneBand : Product :=
  { bands := [[[11]]],
    meta := { height := 1, width := 1, count := 1, driver := "GTiff",
              transform := { a := 10, b := 1, c := 600000, d := 2, e := -10, f := 4500000 },
              crs := "EPSG:32631" },
    tags := mkTags "Sentinel-2 B04 Band" "5.0" "2024-01-05T10:30:00Z"
              "_2024_01_05_B04" "sentinel-2a" }

/-- A fully tagged RGB composite fixture with band count 3, as the canonical
assembly branch produces. -/
def prodRGB : Product :=
  { bands := [[[11]], [[12]], [[13]]],
    meta := { height := 1, width := 1, count := 3, driver := "GTiff",
              transform := { a := 10, b := 0, c := 600000, d := 0, e := -10, f := 4500000 },
              crs := "EPSG:32631" },
    tags := mkTags "Sentinel-2 RGB Composite" "5.0" "2024-01-05T10:30:00Z"
              "_2024_01_05_RGB" "sentinel-2a" }

/-- The band counts per product of an ok result. -/
def okBandCounts (r : Except PyError (List Product)) : Option (List Nat) :=
  match r with
  | .ok ps => some (ps.map fun p => p.bands.length)
  | .error _ => none

/-- The band lists of all products of an ok result. -/
def okBandsOf (r : Except PyError (List Product)) : Option (List (List Grid)) :=
  match r with
  | .ok ps => some (ps.map Product.bands)
  | .error _ => none

/- ------------------------------------------------------------------ -/
/- theorems                                                            -/
/- ------------------------------------------------------------------ -/

/-- C6 counterexample: on the count=3 RGB composite fixture the operation
raises ValueError at dst.write, because a (1, h, w) stack cannot be written
to a dataset opened with count 3, so no raster with a halved transform is
returned — refuting the claim for every composite, since the RGB composites
this pipeline assembles all carry count 3. -/
theorem C6_counterexample :
    changeOne prodRGB [[21]] = .error .valueError ∧
    change_arr [prodRGB] [[[21]]] = .error .valueError ∧
    prodRGB.meta.count = 3 :=
  ⟨rfl, rfl, rfl⟩

/-- C6 amended: for every composite whose band count is 1 and every
replacement pixel array, the operation returns a raster whose transform has
the pixel-scale coefficients a and e exactly halved and the coefficients b, c,
d, f unchanged, and whose width and height equal the column and row counts of
the replacement array; on a singleton list change_arr is exactly this step,
and a scale of (10, -10) becomes (5, -5). Composites with any other band
count make dst.write raise ValueError instead (see the counterexample). -/
theorem C6_amended (p : Product) (arr : Grid) (h1 : p.meta.count = 1) :
    (changeOne p arr).toOption.map
        (fun q => (q.meta.transform, q.meta.width, q.meta.height)) =
      some ({ a := p.meta.transform.a / 2,
              b := p.meta.transform.b,
              c := p.meta.transform.c,
              d := p.meta.transform.d,
              e := p.meta.transform.e / 2,
              f := p.meta.transform.f }, arr.cols, arr.rows) ∧
    change_arr [p] [arr] = (changeOne p arr).map (fun q => [q]) ∧
    ((10 : ℚ) / 2 = 5 ∧ (-10 : ℚ) / 2 = -5) := by
  refine ⟨?_, ?_, by norm_num, by norm_num⟩
  · simp [changeOne, h1]
    exact ⟨_, rfl, rfl, rfl, rfl⟩
  · cases h : changeOne p arr <;> simp [change_arr, h, Except.map]

/-- C6 witness: the amended statement evaluated on the tagged count=1 fixture
with a 2 by 1 replacement array. -/
theorem C6_amended_witness :
    prodOneBand.meta.count = 1 ∧
    ((changeOne prodOneBand [[21], [22]]).toOption.map
        (fun q => (q.meta.transform, q.meta.width, q.meta.height)) =
      some ({ a := prodOneBand.meta.transform.a / 2,
              b := prodOneBand.meta.transform.b,
              c := prodOneBand.meta.transform.c,
              d := prodOneBand.meta.transform.d,
              e := prodOneBand.meta.transform.e / 2,
              f := prodOneBand.meta.transform.f },
            Grid.cols [[21], [22]], Grid.rows [[21], [22]]) ∧
     change_arr [prodOneBand] [[[21], [22]]] =
       (changeOne prodOneBand [[21], [22]]).map (fun q => [q]) ∧
     ((10 : ℚ) / 2 = 5 ∧ (-10 : ℚ) / 2 = -5)) :=
  ⟨rfl, C6_amended prodOneBand [[21], [22]] rfl⟩

/-- C7 counterexample: changeOne on the fully tagged count=1 per-band product
fixture succeeds but returns a raster with an empty tag dictionary, so the
tag set (Title, CloudCover, Date, Suffix, Platform) is not preserved, refuting
the claim that the returned raster carries the same tags as the input. -/
theorem C7_counterexample :
    (changeOne prodOneBand [[21]]).toOption.map Product.tags = some [] ∧
    prodOneBand.tags ≠ [] :=
  ⟨rfl, by decide⟩

/-- C7 amended: for every composite with band count 1 — the only composites
the operation accepts — changeOne preserves the CRS of the source but returns
an empty tag set, because the new MemoryFile is written without update_tags;
for every composite with any other band count, dst.write raises ValueError
and no raster is returned at all. -/
theorem C7_amended (p : Product) (arr : Grid) :
    (p.meta.count = 1 →
      (changeOne p arr).toOption.map (fun q => (q.meta.crs, q.tags)) =
        some (p.meta.crs, [])) ∧
    (p.meta.count ≠ 1 → changeOne p arr = .error .valueError) := by
  constructor
  · intro h1
    simp [changeOne, h1]
    exact ⟨_, rfl, rfl, rfl⟩
  · intro h1
    simp [changeOne, h1]

/-- C7 witness: the amended statement evaluated on the tagged count=1 fixture
(CRS kept, tags emptied) and on the count=3 RGB fixture (ValueError). -/
theorem C7_amended_witness :
    prodOneBand.meta.count = 1 ∧
    (changeOne prodOneBand [[21]]).toOption.map (fun q => (q.meta.crs, q.tags)) =
      some (prodOneBand.meta.crs, []) ∧
    prodRGB.meta.count ≠ 1 ∧
    changeOne prodRGB [[21]] = .error .valueError :=
  ⟨rfl, (C7_amended prodOneBand [[21]]).1 rfl, by decide,
   (C7_amended prodRGB [[21]]).2 (by decide)⟩

/-- C10: when the catalog search yields zero matching scenes, the downloader
returns the pair (None, None), modelled as ok none, and not an empty product
sequence, for every choice of bands, file suffixes, fetch oracle and parse
oracle. -/
theorem C10_empty_returns_none (bands fileSuffix : List String)
    (fetch : String → BandSample) (parseISO : String → Option SDate) :
    getSentinel2ImageResult bands fileSuffix fetch parseISO [] = .ok none ∧
    getSentinel2ImageResult bands fileSuffix fetch parseISO [] ≠ .ok (some []) := by
  refine ⟨rfl, ?_⟩
  simp [getSentinel2ImageResult]

/-- C5 counterexample: the four-coordinate box (2, 0, 1, 3) violates min less
than max on the x axis, yet the entry stage completes without any error and
passes the box through to the search as the polygon with exactly those
coordinates: no InvalidGeometry validation exists. -/
theorem C5_counterexample :
    entrySetup .microsoft 1 0 0 1 1 ["B04", "B03", "B02"]
      (some (.tuple 2 0 1 3)) =
      .ok (["B04", "B03", "B02"], ["B04", "B03", "B02"], shapelyBox 2 0 1 3) ∧
    ¬ ((2 : ℚ) < 1) := by
  exact ⟨rfl, by norm_num⟩

/-- C5 amended: the entry point performs no min-max validation at all: every
caller-supplied four-coordinate box is converted by shapely box into the
polygon with exactly those coordinates and passed through, every supplied
polygon is passed through unchanged, and the setup stage never raises on
either input. -/
theorem C5_amended (api : ApiKind) (cosLat lat lon dx dy a b c d : ℚ)
    (p : Poly) (bs : List String) :
    normalizeBbox cosLat lat lon dx dy (some (.tuple a b c d)) = shapelyBox a b c d ∧
    normalizeBbox cosLat lat lon dx dy (some (.poly p)) = p ∧
    entrySetup api cosLat lat lon dx dy bs (some (.tuple a b c d)) =
      (mapBands api bs).map (fun m => (m, bs, shapelyBox a b c d)) := by
  refine ⟨rfl, rfl, ?_⟩
  cases h : mapBands api bs <;>
    simp [entrySetup, h, Except.map, normalizeBbox]

/-- Helper: the clamp max 0 (min off (W - w)) keeps a window of size w inside
[0, W] whenever w fits at all, that is whenever w is at most W. -/
theorem clamp_inside (off w W : Int) (hwW : w ≤ W) :
    0 ≤ max 0 (min off (W - w)) ∧ max 0 (min off (W - w)) + w ≤ W := by
  constructor
  · exact le_max_left 0 _
  · have h1 : min off (W - w) ≤ W - w := min_le_right _ _
    have h2 : max 0 (min off (W - w)) ≤ W - w := max_le (by omega) h1
    omega

/-- C9 amended: whenever the computed pixel width or height is not positive,
cropWindow fails with the invalid-crop-size error; since the source only
opens the output path after the window computation succeeds, no output file is
written. A bbox entirely outside the raster is rejected only when this size
condition holds: with positive computed extents it is clamped into the raster
instead (see the counterexample). -/
theorem C9_amended (srcW srcH : Nat) (ib bb : Bounds) (pw ph : ℚ)
    (h : pyTrunc ((bb.right - bb.left) / pw) ≤ 0 ∨
         pyTrunc ((bb.top - bb.bottom) / ph) ≤ 0) :
    cropWindow srcW srcH ib pw ph bb = .error .invalidCropSize := by
  simp only [cropWindow]
  rw [if_pos h]

/-- C9 witness: a degenerate bbox whose right edge is left of its left edge
has computed width -2 and is rejected with invalid-crop-size. -/
theorem C9_amended_witness :
    (pyTrunc ((Bounds.right ⟨5, 0, 3, 10⟩ - Bounds.left ⟨5, 0, 3, 10⟩) / 1) ≤ 0 ∨
     pyTrunc ((Bounds.top ⟨5, 0, 3, 10⟩ - Bounds.bottom ⟨5, 0, 3, 10⟩) / 1) ≤ 0) ∧
    cropWindow 10 10 ⟨0, 0, 10, 10⟩ 1 1 ⟨5, 0, 3, 10⟩ = .error .invalidCropSize :=
  ⟨by norm_num [pyTrunc],
   C9_amended 10 10 ⟨0, 0, 10, 10⟩ ⟨5, 0, 3, 10⟩ 1 1 (by norm_num [pyTrunc])⟩

/-- C9 counterexample: a bbox with left edge 100 and bottom edge 90, entirely
outside a 10 by 10 raster spanning [0,10] on both axes, has positive computed
width and height 5, so cropWindow does not fail: the clamp slides the window
to (5,0) inside the raster and an output file is produced, refuting the claim
that any bbox entirely outside the extent fails with invalid-crop-size. -/
theorem C9_counterexample :
    cropWindow 10 10 ⟨0, 0, 10, 10⟩ 1 1 ⟨100, 90, 105, 95⟩ =
      .ok { colOff := 5, rowOff := 0, width := 5, height := 5 } ∧
    (10 : ℚ) < 100 ∧ (10 : ℚ) < 90 := by
  refine ⟨by norm_num [cropWindow, pyTrunc], by norm_num, by norm_num⟩

/-- C8 counterexample: a bbox spanning 20 pixels against a raster only 10
pixels wide yields the ok window (0, 0, 20, 20) after clamping, whose right
edge 0 + 20 exceeds the source width 10: the read window does not lie within
the source extent, refuting the claim for every positive-size bbox. -/
theorem C8_counterexample :
    cropWindow 10 10 ⟨0, 0, 10, 10⟩ 1 1 ⟨0, -10, 20, 10⟩ =
      .ok { colOff := 0, rowOff := 0, width := 20, height := 20 } ∧
    ¬ ((0 : Int) + 20 ≤ 10) := by
  refine ⟨by norm_num [cropWindow, pyTrunc], by decide⟩

/-- C8 amended: whenever cropWindow succeeds and the computed window size also
fits in the source raster (width at most the source width, height at most the
source height), the clamped window lies entirely within the source extent:
nonnegative offsets and offset plus size at most the corresponding dimension.
Without the added fit hypotheses the containment fails (see the
counterexample). -/
theorem C8_amended (srcW srcH : Nat) (ib bb : Bounds) (pw ph : ℚ) (win : CropWin)
    (hok : cropWindow srcW srcH ib pw ph bb = .ok win)
    (hw : win.width ≤ (srcW : Int)) (hh : win.height ≤ (srcH : Int)) :
    0 ≤ win.colOff ∧ win.colOff + win.width ≤ (srcW : Int) ∧
    0 ≤ win.rowOff ∧ win.rowOff + win.height ≤ (srcH : Int) := by
  simp only [cropWindow] at hok
  by_cases hc : pyTrunc ((bb.right - bb.left) / pw) ≤ 0 ∨
                pyTrunc ((bb.top - bb.bottom) / ph) ≤ 0
  · rw [if_pos hc] at hok
    simp at hok
  · rw [if_neg hc] at hok
    have hwin := Except.ok.inj hok
    subst hwin
    have h1 := clamp_inside (pyTrunc ((bb.left - ib.left) / pw))
      (pyTrunc ((bb.right - bb.left) / pw)) (srcW : Int) hw
    have h2 := clamp_inside (pyTrunc ((ib.top - bb.top) / ph))
      (pyTrunc ((bb.top - bb.bottom) / ph)) (srcH : Int) hh
    exact ⟨h1.1, h1.2, h2.1, h2.2⟩

/-- C8 witness: an interior bbox of computed size 6 by 6 in a 10 by 10 raster
yields the window (2, 2, 6, 6), which lies entirely within the extent. -/
theorem C8_amended_witness :
    cropWindow 10 10 ⟨0, 0, 10, 10⟩ 1 1 ⟨2, 2, 8, 8⟩ =
      .ok { colOff := 2, rowOff := 2, width := 6, height := 6 } ∧
    (0 ≤ (2 : Int) ∧ (2 : Int) + 6 ≤ 10 ∧ 0 ≤ (2 : Int) ∧ (2 : Int) + 6 ≤ 10) :=
  ⟨by norm_num [cropWindow, pyTrunc],
   C8_amended 10 10 ⟨0, 0, 10, 10⟩ ⟨2, 2, 8, 8⟩ 1 1
     { colOff := 2, rowOff := 2, width := 6, height := 6 }
     (by norm_num [cropWindow, pyTrunc]) (by decide) (by decide)⟩

/-- Helper: on the canonical triple, when all three bands are collected, the
pixel shapes agree and the timestamp parses, processItem returns exactly one
composite: bands stacked in collection order, meta taken from the last sample
updated with count 3, GTiff, and the transform and crs of the last sample, and
the RGB tag set. -/
theorem processItem_canonical_eq (fileSuffix : List String)
    (fetch : String → BandSample) (parseISO : String → Option SDate)
    (item : Item) (s0 s1 s2 : BandSample) (d : SDate)
    (hc : collectBands item.assets fetch ["B04", "B03", "B02"] = .ok [s0, s1, s2])
    (hsh0 : s0.pixels.shape = s1.pixels.shape)
    (hsh1 : s1.pixels.shape = s2.pixels.shape)
    (hd : parseISO item.datetimeStr = some d) :
    processItem ["B04", "B03", "B02"] fileSuffix fetch parseISO item =
      .ok [{ bands := [s0.pixels, s1.pixels, s2.pixels],
             meta := { s2.meta with
                       count := 3,
                       driver := "GTiff",
                       transform := s2.transform,
                       crs := s2.crs },
             tags := mkTags "Sentinel-2 RGB Composite" item.cloudCover
                       item.datetimeStr (mkSfx d "RGB")
                       (item.platform.getD "Sentinel-2") }] := by
  unfold processItem
  rw [hc]
  simp [isCanonical, hsh0, hsh1, hd]

/-- C1 amended: for the canonical triple with all bands fetched successfully
(equal pixel shapes, parseable timestamp), the assembled composite adopts the
affine transform, CRS and pixel dimensions of the LAST band sample in
band_order (the last-fetched band), because the meta, transform and crs
variables left over from the final loop iteration are used; they are not those
of the first band sample. -/
theorem C1_amended (fileSuffix : List String)
    (fetch : String → BandSample) (parseISO : String → Option SDate)
    (item : Item) (s0 s1 s2 : BandSample) (d : SDate)
    (hc : collectBands item.assets fetch ["B04", "B03", "B02"] = .ok [s0, s1, s2])
    (hsh0 : s0.pixels.shape = s1.pixels.shape)
    (hsh1 : s1.pixels.shape = s2.pixels.shape)
    (hd : parseISO item.datetimeStr = some d) :
    (processItem ["B04", "B03", "B02"] fileSuffix fetch parseISO item).toOption.map
        (List.map fun p => (p.meta.transform, p.meta.crs, p.meta.height, p.meta.width)) =
      some [(s2.transform, s2.crs, s2.meta.height, s2.meta.width)] := by
  rw [processItem_canonical_eq fileSuffix fetch parseISO item s0 s1 s2 d hc hsh0 hsh1 hd]
  rfl

/-- C1 witness: the amended statement evaluated on the concrete fixture scene
with three distinct band transforms. -/
theorem C1_amended_witness :
    collectBands itemRGB.assets fetchRGB ["B04", "B03", "B02"] =
      .ok [sampleR, sampleG, sampleB] ∧
    (processItem ["B04", "B03", "B02"] ["B04", "B03", "B02"] fetchRGB parseJan5
        itemRGB).toOption.map
        (List.map fun p => (p.meta.transform, p.meta.crs, p.meta.height, p.meta.width)) =
      some [(sampleB.transform, sampleB.crs, sampleB.meta.height, sampleB.meta.width)] :=
  ⟨rfl,
   C1_amended ["B04", "B03", "B02"] fetchRGB parseJan5 itemRGB
     sampleR sampleG sampleB { year := 2024, month := 1, day := 5 }
     rfl rfl rfl rfl⟩

/-- C1 counterexample: on the fixture scene all three bands are fetched
successfully and the composite carries the transform of the blue (last)
sample, origin 600020, which differs from the transform of the red (first)
sample, origin 600000, refuting the claim that the first band sample is
authoritative. -/
theorem C1_counterexample :
    (processItem ["B04", "B03", "B02"] ["B04", "B03", "B02"] fetchRGB parseJan5
        itemRGB).toOption.map (List.map fun p => p.meta.transform) =
      some [sampleB.transform] ∧
    sampleB.transform ≠ sampleR.transform := by
  refine ⟨rfl, ?_⟩
  intro h
  have := congrArg Affine.c h
  norm_num [sampleB, sampleR] at this

/-- C2 amended: only for the canonical red green blue triple does assembly
produce exactly one in-memory raster per scene with the samples stacked along
a new leading band axis in band_order: one product, band axis length 3, band i
equal to the pixel data of sample i. Other band orders do not stack (see the
counterexample). -/
theorem C2_amended (fileSuffix : List String)
    (fetch : String → BandSample) (parseISO : String → Option SDate)
    (item : Item) (s0 s1 s2 : BandSample) (d : SDate)
    (hc : collectBands item.assets fetch ["B04", "B03", "B02"] = .ok [s0, s1, s2])
    (hsh0 : s0.pixels.shape = s1.pixels.shape)
    (hsh1 : s1.pixels.shape = s2.pixels.shape)
    (hd : parseISO item.datetimeStr = some d) :
    okLength (processItem ["B04", "B03", "B02"] fileSuffix fetch parseISO item) = some 1 ∧
    okBandsOf (processItem ["B04", "B03", "B02"] fileSuffix fetch parseISO item) =
      some [[s0.pixels, s1.pixels, s2.pixels]] := by
  rw [processItem_canonical_eq fileSuffix fetch parseISO item s0 s1 s2 d hc hsh0 hsh1 hd]
  exact ⟨rfl, rfl⟩

/-- C2 witness: the amended statement evaluated on the concrete fixture
scene: one composite whose three bands are the red, green and blue samples in
order. -/
theorem C2_amended_witness :
    collectBands itemRGB.assets fetchRGB ["B04", "B03", "B02"] =
      .ok [sampleR, sampleG, sampleB] ∧
    okLength (processItem ["B04", "B03", "B02"] ["B04", "B03", "B02"] fetchRGB
      parseJan5 itemRGB) = some 1 ∧
    okBandsOf (processItem ["B04", "B03", "B02"] ["B04", "B03", "B02"] fetchRGB
      parseJan5 itemRGB) = some [[sampleR.pixels, sampleG.pixels, sampleB.pixels]] :=
  ⟨rfl,
   C2_amended ["B04", "B03", "B02"] fetchRGB parseJan5 itemRGB
     sampleR sampleG sampleB { year := 2024, month := 1, day := 5 }
     rfl rfl rfl rfl⟩

/-- C2 counterexample: for the non-canonical band_order [B04, B03] whose two
bands both fetch successfully, assembly produces two single-band raster
products, not one product with a band axis of length two, refuting the claim
for every band_order. -/
theorem C2_counterexample :
    okLength (processItem ["B04", "B03"] ["B04", "B03"] fetchRGB parseJan5 itemRGB) =
      some 2 ∧
    okBandCounts (processItem ["B04", "B03"] ["B04", "B03"] fetchRGB parseJan5 itemRGB) =
      some [1, 1] ∧
    (2 : Nat) ≠ 1 := by
  exact ⟨rfl, rfl, by decide⟩

/-- C3: a scene whose asset index lacks the requested band B04 makes the run
raise KeyError at assets[band], aborting the whole loop so that a following
fully valid scene is never processed; and a scene whose B04 asset has a None
href takes the break path and then crashes with IndexError at bands_data[0],
instead of skipping the scene and continuing. This evaluates the code on the
failing inputs of the code_bug verdict. -/
theorem C3_code_eval :
    processItems ["B04", "B03", "B02"] ["B04", "B03", "B02"] fetchRGB parseJan5
      [itemNoB04, itemRGB] = .error (.keyError "B04") ∧
    processItem ["B04", "B03", "B02"] ["B04", "B03", "B02"] fetchRGB parseJan5
      itemNullHref = .error .indexError := by
  exact ⟨rfl, rfl⟩

/-- C4 counterexample: a scene whose acquisition timestamp does not parse as
ISO-8601 makes the run raise out of isoparse: no composite is produced for the
scene and the whole run aborts, so a following valid scene is lost too,
refuting the claim that the composite is still produced without the suffix
tag. -/
theorem C4_counterexample :
    processItems ["B04", "B03", "B02"] ["B04", "B03", "B02"] fetchRGB parseMixed
      [itemBadDate, itemRGB] = .error .parseError ∧
    okLength (processItem ["B04", "B03", "B02"] ["B04", "B03", "B02"] fetchRGB
      parseMixed itemBadDate) = none := by
  exact ⟨rfl, rfl⟩

/-- C4 amended: whenever the acquisition timestamp fails to parse, the scene
yields an uncaught exception: processItem returns the parse error rather than
a composite, and the whole run over the remaining scenes aborts with it. -/
theorem C4_amended (fileSuffix : List String)
    (fetch : String → BandSample) (parseISO : String → Option SDate)
    (item : Item) (rest : List Item) (s0 s1 s2 : BandSample)
    (hc : collectBands item.assets fetch ["B04", "B03", "B02"] = .ok [s0, s1, s2])
    (hsh0 : s0.pixels.shape = s1.pixels.shape)
    (hsh1 : s1.pixels.shape = s2.pixels.shape)
    (hdn : parseISO item.datetimeStr = none) :
    processItem ["B04", "B03", "B02"] fileSuffix fetch parseISO item = .error .parseError ∧
    processItems ["B04", "B03", "B02"] fileSuffix fetch parseISO (item :: rest) =
      .error .parseError := by
  have h1 : processItem ["B04", "B03", "B02"] fileSuffix fetch parseISO item =
      .error .parseError := by
    unfold processItem
    rw [hc]
    simp [isCanonical, hsh0, hsh1, hdn]
  refine ⟨h1, ?_⟩
  unfold processItems
  rw [h1]

/-- C4 witness: the amended statement evaluated on the fixture scene with the
malformed timestamp, followed by a valid scene that is lost with it. -/
theorem C4_amended_witness :
    parseMixed itemBadDate.datetimeStr = none ∧
    (processItem ["B04", "B03", "B02"] ["B04", "B03", "B02"] fetchRGB parseMixed
       itemBadDate = .error .parseError ∧
     processItems ["B04", "B03", "B02"] ["B04", "B03", "B02"] fetchRGB parseMixed
       [itemBadDate, itemRGB] = .error .parseError) :=
  ⟨rfl,
   C4_amended ["B04", "B03", "B02"] fetchRGB parseMixed itemBadDate [itemRGB]
     sampleR sampleG sampleB rfl rfl rfl rfl⟩

end S2
